import Mathlib

/-!
Verification development for the health-coaching discrete-event narrative
engine (simulation/processes.py, utils.py, models/state.py, config.py).
Python functions are shallowly embedded as executable Lean definitions;
randomness (random.random, random.randint, random.choice, random.expovariate)
is modelled by explicit oracle parameters, and floats by rationals.
-/

/-! ## JSON values and a model of Python's json.loads
    (used by utils.py parse_llm_response and the member/expert action paths) -/

/-- JSON value tree. Numbers keep their raw lexeme (the engine never does
arithmetic on parsed numbers). Objects keep members in parse order;
lookups take the last binding, like a Python dict built by json.loads. -/
inductive Json where
  | null : Json
  | bool : Bool → Json
  | num : String → Json
  | str : String → Json
  | arr : List Json → Json
  | obj : List (String × Json) → Json

mutual

def jsonDecEq : (a b : Json) → Decidable (a = b)
  | .null, .null => isTrue rfl
  | .null, .bool _ => isFalse (fun h => Json.noConfusion h)
  | .null, .num _ => isFalse (fun h => Json.noConfusion h)
  | .null, .str _ => isFalse (fun h => Json.noConfusion h)
  | .null, .arr _ => isFalse (fun h => Json.noConfusion h)
  | .null, .obj _ => isFalse (fun h => Json.noConfusion h)
  | .bool _, .null => isFalse (fun h => Json.noConfusion h)
  | .bool a, .bool b =>
    match instDecidableEqBool a b with
    | isTrue h => isTrue (congrArg Json.bool h)
    | isFalse h => isFalse (by intro hh; injection hh with h1; exact h h1)
  | .bool _, .num _ => isFalse (fun h => Json.noConfusion h)
  | .bool _, .str _ => isFalse (fun h => Json.noConfusion h)
  | .bool _, .arr _ => isFalse (fun h => Json.noConfusion h)
  | .bool _, .obj _ => isFalse (fun h => Json.noConfusion h)
  | .num _, .null => isFalse (fun h => Json.noConfusion h)
  | .num _, .bool _ => isFalse (fun h => Json.noConfusion h)
  | .num a, .num b =>
    match instDecidableEqString a b with
    | isTrue h => isTrue (congrArg Json.num h)
    | isFalse h => isFalse (by intro hh; injection hh with h1; exact h h1)
  | .num _, .str _ => isFalse (fun h => Json.noConfusion h)
  | .num _, .arr _ => isFalse (fun h => Json.noConfusion h)
  | .num _, .obj _ => isFalse (fun h => Json.noConfusion h)
  | .str _, .null => isFalse (fun h => Json.noConfusion h)
  | .str _, .bool _ => isFalse (fun h => Json.noConfusion h)
  | .str _, .num _ => isFalse (fun h => Json.noConfusion h)
  | .str a, .str b =>
    match instDecidableEqString a b with
    | isTrue h => isTrue (congrArg Json.str h)
    | isFalse h => isFalse (by intro hh; injection hh with h1; exact h h1)
  | .str _, .arr _ => isFalse (fun h => Json.noConfusion h)
  | .str _, .obj _ => isFalse (fun h => Json.noConfusion h)
  | .arr _, .null => isFalse (fun h => Json.noConfusion h)
  | .arr _, .bool _ => isFalse (fun h => Json.noConfusion h)
  | .arr _, .num _ => isFalse (fun h => Json.noConfusion h)
  | .arr _, .str _ => isFalse (fun h => Json.noConfusion h)
  | .arr a, .arr b =>
    match jsonDecEqList a b with
    | isTrue h => isTrue (congrArg Json.arr h)
    | isFalse h => isFalse (by intro hh; injection hh with h1; exact h h1)
  | .arr _, .obj _ => isFalse (fun h => Json.noConfusion h)
  | .obj _, .null => isFalse (fun h => Json.noConfusion h)
  | .obj _, .bool _ => isFalse (fun h => Json.noConfusion h)
  | .obj _, .num _ => isFalse (fun h => Json.noConfusion h)
  | .obj _, .str _ => isFalse (fun h => Json.noConfusion h)
  | .obj _, .arr _ => isFalse (fun h => Json.noConfusion h)
  | .obj a, .obj b =>
    match jsonDecEqObjList a b with
    | isTrue h => isTrue (congrArg Json.obj h)
    | isFalse h => isFalse (by intro hh; injection hh with h1; exact h h1)

def jsonDecEqList : (a b : List Json) → Decidable (a = b)
  | [], [] => isTrue rfl
  | [], _ :: _ => isFalse (fun h => List.noConfusion h)
  | _ :: _, [] => isFalse (fun h => List.noConfusion h)
  | x :: xs, y :: ys =>
    match jsonDecEq x y with
    | isFalse h => isFalse (by intro hh; injection hh with h1 h2; exact h h1)
    | isTrue h1 =>
      match jsonDecEqList xs ys with
      | isTrue h2 => isTrue (by rw [h1, h2])
      | isFalse h2 => isFalse (by intro hh; injection hh with ha hb; exact h2 hb)

def jsonDecEqObjList : (a b : List (String × Json)) → Decidable (a = b)
  | [], [] => isTrue rfl
  | [], _ :: _ => isFalse (fun h => List.noConfusion h)
  | _ :: _, [] => isFalse (fun h => List.noConfusion h)
  | (k1, v1) :: xs, (k2, v2) :: ys =>
    match instDecidableEqString k1 k2 with
    | isFalse h => isFalse (by intro hh; injection hh with h1 h2; injection h1 with ha hb; exact h ha)
    | isTrue hk =>
      match jsonDecEq v1 v2 with
      | isFalse h => isFalse (by intro hh; injection hh with h1 h2; injection h1 with ha hb; exact h hb)
      | isTrue hv =>
        match jsonDecEqObjList xs ys with
        | isTrue ht => isTrue (by rw [hk, hv, ht])
        | isFalse h => isFalse (by intro hh; injection hh with h1 h2; exact h h2)

end

instance : DecidableEq Json := jsonDecEq

/-- The four whitespace characters Python's json accepts between tokens. -/
def jsonWsChar (c : Char) : Bool :=
  c = ' ' || c = '\t' || c = '\n' || c = '\r'

def skipWs : List Char → List Char
  | [] => []
  | c :: cs => if jsonWsChar c then skipWs cs else c :: cs

def lbrace : Char := Char.ofNat 123

def rbrace : Char := Char.ofNat 125

def hexVal (c : Char) : Option ℕ :=
  if c.isDigit then some (c.toNat - 48)
  else if 'a' ≤ c ∧ c ≤ 'f' then some (c.toNat - 87)
  else if 'A' ≤ c ∧ c ≤ 'F' then some (c.toNat - 55)
  else none

/-- Body of a JSON string after the opening quote: ordinary characters,
the backslash escapes json.loads accepts, and rejection of raw control
characters (strict mode). -/
def parseJStrAux : List Char → List Char → Option (String × List Char)
  | acc, '"' :: rest => some (String.mk acc.reverse, rest)
  | acc, '\\' :: '"' :: rest => parseJStrAux ('"' :: acc) rest
  | acc, '\\' :: '\\' :: rest => parseJStrAux ('\\' :: acc) rest
  | acc, '\\' :: '/' :: rest => parseJStrAux ('/' :: acc) rest
  | acc, '\\' :: 'b' :: rest => parseJStrAux ('\x08' :: acc) rest
  | acc, '\\' :: 'f' :: rest => parseJStrAux ('\x0C' :: acc) rest
  | acc, '\\' :: 'n' :: rest => parseJStrAux ('\n' :: acc) rest
  | acc, '\\' :: 'r' :: rest => parseJStrAux ('\x0D' :: acc) rest
  | acc, '\\' :: 't' :: rest => parseJStrAux ('\t' :: acc) rest
  | acc, '\\' :: 'u' :: h1 :: h2 :: h3 :: h4 :: rest =>
    match hexVal h1, hexVal h2, hexVal h3, hexVal h4 with
    | some a, some b, some c, some d =>
      parseJStrAux (Char.ofNat (((a * 16 + b) * 16 + c) * 16 + d) :: acc) rest
    | _, _, _, _ => none
  | _, '\\' :: _ => none
  | acc, c :: rest => if c.toNat < 32 then none else parseJStrAux (c :: acc) rest
  | _, [] => none

def takeDigits : List Char → List Char × List Char
  | [] => ([], [])
  | c :: cs =>
    if c.isDigit then
      let r := takeDigits cs
      (c :: r.1, r.2)
    else ([], c :: cs)

/-- Integer part of a JSON number: a single 0, or a nonzero digit then digits. -/
def parseIntPart : List Char → Option (List Char × List Char)
  | '0' :: rest => some (['0'], rest)
  | c :: rest =>
    if c.isDigit then
      let r := takeDigits rest
      some (c :: r.1, r.2)
    else none
  | [] => none

/-- A JSON number lexeme: sign, integer part, optional fraction, optional
exponent, exactly the grammar json.loads accepts. -/
def parseJNum (l : List Char) : Option (String × List Char) :=
  let sl : List Char × List Char :=
    match l with
    | '-' :: r => (['-'], r)
    | _ => ([], l)
  match parseIntPart sl.2 with
  | none => none
  | some (ip, r1) =>
    let fracRes : Option (List Char × List Char) :=
      match r1 with
      | '.' :: r2 =>
        match takeDigits r2 with
        | ([], _) => none
        | (ds, r3) => some ('.' :: ds, r3)
      | _ => some ([], r1)
    match fracRes with
    | none => none
    | some (fp, r2) =>
      let expRes : Option (List Char × List Char) :=
        match r2 with
        | e :: r3 =>
          if e = 'e' ∨ e = 'E' then
            let sr : List Char × List Char :=
              match r3 with
              | s :: r5 => if s = '+' ∨ s = '-' then ([s], r5) else ([], s :: r5)
              | [] => ([], [])
            match takeDigits sr.2 with
            | ([], _) => none
            | (ds, r5) => some (e :: (sr.1 ++ ds), r5)
          else some ([], e :: r3)
        | [] => some ([], [])
      match expRes with
      | none => none
      | some (ep, r3) => some (String.mk (sl.1 ++ ip ++ fp ++ ep), r3)

mutual

/-- One JSON value: strings, keywords (including the NaN and Infinity
extensions Python accepts), numbers, arrays and objects. -/
def parseVal : ℕ → List Char → Option (Json × List Char)
  | 0, _ => none
  | fuel + 1, l =>
    match skipWs l with
    | [] => none
    | '"' :: rest =>
      match parseJStrAux [] rest with
      | some (s, r) => some (Json.str s, r)
      | none => none
    | 't' :: 'r' :: 'u' :: 'e' :: rest => some (Json.bool true, rest)
    | 'f' :: 'a' :: 'l' :: 's' :: 'e' :: rest => some (Json.bool false, rest)
    | 'n' :: 'u' :: 'l' :: 'l' :: rest => some (Json.null, rest)
    | 'N' :: 'a' :: 'N' :: rest => some (Json.num "NaN", rest)
    | 'I' :: 'n' :: 'f' :: 'i' :: 'n' :: 'i' :: 't' :: 'y' :: rest =>
      some (Json.num "Infinity", rest)
    | '-' :: 'I' :: 'n' :: 'f' :: 'i' :: 'n' :: 'i' :: 't' :: 'y' :: rest =>
      some (Json.num "-Infinity", rest)
    | c :: rest =>
      if c = '[' then parseArrBody fuel rest
      else if c = lbrace then parseObjBody fuel rest
      else
        match parseJNum (c :: rest) with
        | some (s, r) => some (Json.num s, r)
        | none => none

/-- Array body after the opening bracket. -/
def parseArrBody : ℕ → List Char → Option (Json × List Char)
  | 0, _ => none
  | fuel + 1, l =>
    match skipWs l with
    | ']' :: rest => some (Json.arr [], rest)
    | _ =>
      match parseArrItems fuel l with
      | some (items, rest) => some (Json.arr items, rest)
      | none => none

def parseArrItems : ℕ → List Char → Option (List Json × List Char)
  | 0, _ => none
  | fuel + 1, l =>
    match parseVal fuel l with
    | none => none
    | some (v, r) =>
      match skipWs r with
      | ',' :: r2 =>
        match parseArrItems fuel r2 with
        | some (vs, r3) => some (v :: vs, r3)
        | none => none
      | ']' :: r2 => some ([v], r2)
      | _ => none

/-- Object body after the opening brace. -/
def parseObjBody : ℕ → List Char → Option (Json × List Char)
  | 0, _ => none
  | fuel + 1, l =>
    match skipWs l with
    | c :: rest =>
      if c = rbrace then some (Json.obj [], rest)
      else
        match parseObjMembers fuel (c :: rest) with
        | some (ms, r) => some (Json.obj ms, r)
        | none => none
    | [] => none

def parseObjMembers : ℕ → List Char → Option (List (String × Json) × List Char)
  | 0, _ => none
  | fuel + 1, l =>
    match skipWs l with
    | '"' :: rest =>
      match parseJStrAux [] rest with
      | none => none
      | some (k, r) =>
        match skipWs r with
        | ':' :: r2 =>
          match parseVal fuel r2 with
          | none => none
          | some (v, r3) =>
            match skipWs r3 with
            | ',' :: r4 =>
              match parseObjMembers fuel r4 with
              | some (ms, r5) => some ((k, v) :: ms, r5)
              | none => none
            | c :: r4 => if c = rbrace then some ([(k, v)], r4) else none
            | [] => none
        | _ => none
    | _ => none

end

/-- Model of json.loads: parse one value and require only whitespace after
it; any failure corresponds to a raised JSONDecodeError. -/
def Json.parse (s : String) : Option Json :=
  let l := s.toList
  match parseVal (4 * (l.length + 2)) l with
  | some (v, rest) => if (skipWs rest).isEmpty then some v else none
  | none => none

/-- Dict lookup for parsed objects: the last duplicate binding wins, as in
a Python dict built by json.loads. -/
def objGet : List (String × Json) → String → Option Json
  | [], _ => none
  | (k, v) :: rest, key =>
    match objGet rest key with
    | some w => some w
    | none => if k = key then some v else none

/-! ## Python string helpers: str.strip, substring test, str.split -/

/-- The ASCII whitespace Python's str.strip removes. -/
def pyWsChar (c : Char) : Bool :=
  c = ' ' || c = '\t' || c = '\n' || c = '\r' || c = '\x0B' || c = '\x0C'

/-- Python str.strip. -/
def pyStrip (s : String) : String :=
  String.mk (((s.toList.dropWhile pyWsChar).reverse.dropWhile pyWsChar).reverse)

def stripPre : List Char → List Char → Option (List Char)
  | [], l => some l
  | _ :: _, [] => none
  | p :: ps, c :: cs => if p = c then stripPre ps cs else none

/-- Split at the first occurrence of sep, returning the two sides. -/
def splitFirst (sep : List Char) : List Char → Option (List Char × List Char)
  | [] =>
    match stripPre sep [] with
    | some rest => some ([], rest)
    | none => none
  | c :: cs =>
    match stripPre sep (c :: cs) with
    | some rest => some ([], rest)
    | none =>
      match splitFirst sep cs with
      | some (h, t) => some (c :: h, t)
      | none => none

/-- Python's `sub in s` substring test. -/
def containsSub (s sub : String) : Bool := (splitFirst sub.toList s.toList).isSome

def splitAll (sep : List Char) : ℕ → List Char → List (List Char)
  | 0, l => [l]
  | fuel + 1, l =>
    match splitFirst sep l with
    | some (h, t) => h :: splitAll sep fuel t
    | none => [l]

/-- Python str.split with a non-empty separator. -/
def pySplit (s sep : String) : List String :=
  (splitAll sep.toList (s.length + 1) s.toList).map String.mk

/-- Indexing into a split result; utils.py only indexes positions that are
guaranteed to exist by the preceding containment check. -/
def pySplitIdx (s sep : String) (i : ℕ) : String := (pySplit s sep).getD i ""

/-! ## utils.py parse_llm_response (lines 75-100) -/

/-- Markdown-fence clean-up of utils.py lines 82-86: the text between the
first fence marker pair, stripped, or the raw response unchanged. -/
def fenceExtract (raw : String) : String :=
  if containsSub raw "```json" then
    pyStrip (pySplitIdx (pySplitIdx raw "```json" 1) "```" 0)
  else if containsSub raw "```" then
    pyStrip (pySplitIdx raw "```" 1)
  else raw

/-- The fallback action dict literal of utils.py lines 95 and 100. -/
def noneAction : Json := Json.obj [("type", Json.str "NONE")]

/-- utils.py parse_llm_response: fence clean-up, json.loads, one level of
unwrapping under a dict-valued "response" key, then message/action extraction
with defaults; every failure mode (JSONDecodeError on malformed text,
AttributeError/TypeError when the parsed value is not a dict) is caught and
falls back to (stripped text, NONE action). Total by construction — the
Python contract that the parser never raises. -/
def parse_llm_response (raw_response : String) : Json × Json :=
  let raw1 := fenceExtract raw_response
  match Json.parse raw1 with
  | some (Json.obj members) =>
    let o :=
      match objGet members "response" with
      | some (Json.obj inner) => inner
      | _ => members
    ((objGet o "message").getD (Json.str ""), (objGet o "action").getD noneAction)
  | some _ => (Json.str (pyStrip raw1), noneAction)
  | none => (Json.str (pyStrip raw1), noneAction)

/-! ## Python truthiness and the action executor
    (processes.py lines 253-256 and 347-350) -/

/-- Python truthiness of a JSON value (`if action`, `if message`,
`if not question_text`). A number is falsy when its mantissa has no nonzero
digit; NaN and the infinities are truthy. -/
def jsonTruthy : Json → Bool
  | Json.null => false
  | Json.bool b => b
  | Json.str s => !(s == "")
  | Json.num s =>
    if s = "NaN" ∨ s = "Infinity" ∨ s = "-Infinity" then true
    else (s.toList.takeWhile (fun c => !(c == 'e') && !(c == 'E'))).any
      (fun c => c.isDigit && !(c == '0'))
  | Json.arr l => !l.isEmpty
  | Json.obj m => !m.isEmpty

/-- Whether a JSON value may serve as a Python dict key (hashable). -/
def jsonHashable : Json → Bool
  | Json.arr _ => false
  | Json.obj _ => false
  | _ => true

/-- Python dict assignment on the narrative_flags mapping. -/
def setFlag : List (Json × Json) → Json → Json → List (Json × Json)
  | [], k, v => [(k, v)]
  | (k0, v0) :: rest, k, v =>
    if k0 = k then (k, v) :: rest else (k0, v0) :: setFlag rest k v

/-- Python dict lookup on the narrative_flags mapping. -/
def getFlag : List (Json × Json) → Json → Option Json
  | [], _ => none
  | (k0, v0) :: rest, k => if k0 = k then some v0 else getFlag rest k

/-- Action execution as written at processes.py lines 253-256 (identical at
347-350): a truthy action of type other than "NONE" logs ACTION_EXECUTED;
type UPDATE_NARRATIVE_FLAG then assigns
`narrative_flags[action["payload"]["flag"]] = action.get("payload", {})` —
the whole payload, not its "value" entry. Missing keys or an unhashable key
raise inside the surrounding try and are logged as ERROR. -/
def executeAction (flags : List (Json × Json)) (action : Json) :
    List (Json × Json) × List String :=
  if jsonTruthy action = false then (flags, [])
  else
    match action with
    | Json.obj members =>
      if objGet members "type" = some (Json.str "NONE") then (flags, [])
      else
        match objGet members "type" with
        | none => (flags, ["ACTION_EXECUTED", "ERROR"])
        | some t =>
          if t = Json.str "UPDATE_NARRATIVE_FLAG" then
            match objGet members "payload" with
            | some (Json.obj p) =>
              match objGet p "flag" with
              | some k =>
                if jsonHashable k then
                  (setFlag flags k (Json.obj p), ["ACTION_EXECUTED"])
                else (flags, ["ACTION_EXECUTED", "ERROR"])
              | none => (flags, ["ACTION_EXECUTED", "ERROR"])
            | _ => (flags, ["ACTION_EXECUTED", "ERROR"])
          else (flags, ["ACTION_EXECUTED"])
    | _ => (flags, ["ERROR"])

/-! ## member_process, Initiate mode (processes.py lines 305-350) -/

/-- Extraction of the question text at processes.py lines 308-313:
`json.loads(raw_json).get("question", raw_json)`, falling back to
`raw_json.strip()` on JSONDecodeError or AttributeError. -/
def extractQuestion (raw : String) : Json :=
  match Json.parse raw with
  | some (Json.obj o) => (objGet o "question").getD (Json.str raw)
  | some _ => Json.str (pyStrip raw)
  | none => Json.str (pyStrip raw)

/-- An event-log entry as far as the member process observes or creates it. -/
structure MEvent where
  etype : String
  source : String
  content : Json
deriving DecidableEq

/-- The slice of the shared simulation state the Initiate branch touches.
The agent_memory mapping is the one the processes assume is present on the
state (see the C3 theorem about models/state.py). -/
structure MemberSimState where
  event_log : List MEvent
  agent_memory : List (String × List Json)
  narrative_flags : List (Json × Json)
deriving DecidableEq

def memGet (mem : List (String × List Json)) (name : String) : List Json :=
  match mem with
  | [] => []
  | (k, v) :: rest => if k = name then v else memGet rest name

def memSet (mem : List (String × List Json)) (name : String) (v : List Json) :
    List (String × List Json) :=
  match mem with
  | [] => [(name, v)]
  | (k, w) :: rest => if k = name then (name, v) :: rest else (k, w) :: memSet rest name v

/-- Python list slice `l[-5:]`. -/
def lastN (n : ℕ) (l : List α) : List α := l.drop (l.length - n)

/-- Append a message to a responder's bounded memory and re-trim to the
last 5 entries (processes.py lines 319-322 and 342-345). -/
def memAppend (mem : List (String × List Json)) (name : String) (v : Json) :
    List (String × List Json) :=
  memSet mem name (lastN 5 (memGet mem name ++ [v]))

/-- The Initiate branch of member_process (processes.py lines 305-350),
one activation, with the collaborator outputs passed as oracles:
rawQuestion is the member agent's raw question JSON, routedName the router's
expert_name, responderRaw the chosen expert's raw response. An empty
(falsy) extracted question abandons the activation (`continue`, line 315-316)
before any event is logged or memory touched. -/
def memberInitiate (s : MemberSimState) (rawQuestion routedName : String)
    (roster : List String) (responderRaw : String) : MemberSimState :=
  let q := extractQuestion rawQuestion
  if jsonTruthy q = false then s
  else
    let s1 : MemberSimState :=
      { s with
        event_log := s.event_log ++ [⟨"MESSAGE", "Rohan", q⟩],
        agent_memory := memAppend s.agent_memory "Rohan" q }
    let responder := if routedName ∈ roster then routedName else "Ruby"
    let s2 : MemberSimState :=
      { s1 with
        event_log := s1.event_log ++
          [⟨"ROUTING", "SIM_CORE", Json.obj [("question", q), ("routed_to", Json.str responder)]⟩] }
    let ma := parse_llm_response responderRaw
    let s3 : MemberSimState :=
      if jsonTruthy ma.1 then
        { s2 with
          event_log := s2.event_log ++ [⟨"MESSAGE", responder, ma.1⟩],
          agent_memory := memAppend s2.agent_memory responder ma.1 }
      else s2
    let fe := executeAction s3.narrative_flags ma.2
    { s3 with
      narrative_flags := fe.1,
      event_log := s3.event_log ++ fe.2.map (fun e => ⟨e, responder ++ "_AGENT", Json.null⟩) }

/-! ## proactive_expert_process (processes.py lines 125-259) -/

/-- Python float modulo for the nonnegative day values the resolver sees. -/
def pymod (a b : ℚ) : ℚ := a - b * ((⌊a / b⌋ : ℤ) : ℚ)

/-- Python abs. -/
def pyAbs (q : ℚ) : ℚ := if q < 0 then -q else q

/-- Truthiness of narrative_flags.get on a string-valued flag. -/
def optTruthy : Option String → Bool
  | some s => !(s == "")
  | none => false

/-- Responder choice by keyword match on the active issue name
(processes.py lines 164-167). -/
def issueResponder (issue : String) : String :=
  if containsSub issue "Strain" then "Rachel"
  else if containsSub issue "Illness" || containsSub issue "Pressure" then "Dr. Warren"
  else if containsSub issue "Indigestion" then "Carla"
  else "Dr. Warren"

/-- The narrative_flags keys the trigger resolver reads or writes. Note that
the key the 45-day branch reads (wellness_check_sent) and the key its firing
writes (wellness_check_sent_day) are distinct fields, exactly as in the
source (lines 193 and 199). -/
structure ResolverFlags where
  status : Option String
  travel_check_in_sent : Bool
  onboarding_docs_sent : Bool
  active_issue : Option String
  adherence_check_sent : Bool
  wellness_check_sent : Bool
  wellness_check_sent_day : Option ℚ
deriving DecidableEq

/-- The ten proactive triggers of the elif chain, in source order. -/
inductive TriggerKind where
  | travelCheckIn
  | onboardingDocs
  | healthAlert (issue : String)
  | milestoneCongrats
  | adherenceCheckIn
  | wellnessCheck
  | recoveryAlert
  | exercisePlanCheckIn
  | nutritionBiweekly
  | quarterlyReview
deriving DecidableEq

/-- Daily adherence update (processes.py lines 134-143): deviateRoll is
`random.random() > PLAN_ADHERENCE_PROBABILITY`. Returns the new
adherence_status and days_deviated counter. -/
def updateAdherence (deviateRoll : Bool) (status : String) (daysDeviated : ℕ) :
    String × ℕ :=
  if deviateRoll then
    if status = "ON_TRACK" then ("DEVIATED", 1) else (status, daysDeviated + 1)
  else ("ON_TRACK", 0)

/-- The post-selection clean-up of processes.py lines 236-238, executed only
when some branch fired: drop wellness_check_sent_day once the day has
advanced past the recorded send-day. -/
def wellnessCleanup (day : ℚ)
    (sel : Option (String × TriggerKind) × ResolverFlags) :
    Option (String × TriggerKind) × ResolverFlags :=
  match sel with
  | (some rt, f1) =>
    (some rt,
      match f1.wellness_check_sent_day with
      | some d => if d < day then { f1 with wellness_check_sent_day := none } else f1
      | none => f1)
  | (none, f1) => (none, f1)

/-- The daily elif chain of proactive_expert_process (lines 145-238), taking
the post-update days_deviated counter, the latest event type, the live
recovery_score reading (default 100), and the plan's last_exercise_update_day.
Besides the ten selecting branches it contains the two non-selecting arms of
the source: the TRAVEL_END arm after branch 1 (line 154) and the
days_deviated == 0 arm after branch 5 (line 189); each ends evaluation for
the tick. Returns the selected (responder, trigger) pair, if any, and the
updated flags. -/
def resolveTriggers (f : ResolverFlags) (lastEvent : Option String)
    (day recovery lastExUpd : ℚ) (daysDev : ℕ) :
    Option (String × TriggerKind) × ResolverFlags :=
  wellnessCleanup day
    (if lastEvent = some "TRAVEL_START" ∧ f.travel_check_in_sent = false then
      (some ("Ruby", TriggerKind.travelCheckIn), { f with travel_check_in_sent := true })
    else if lastEvent = some "TRAVEL_END" then
      (none, { f with travel_check_in_sent := false })
    else if f.status = some "Onboarding" ∧ f.onboarding_docs_sent = false then
      (some ("Ruby", TriggerKind.onboardingDocs), { f with onboarding_docs_sent := true })
    else if optTruthy f.active_issue = true then
      (some (issueResponder (f.active_issue.getD ""),
             TriggerKind.healthAlert (f.active_issue.getD "")), f)
    else if lastEvent = some "POSITIVE_MILESTONE" then
      (some ("Neel", TriggerKind.milestoneCongrats), f)
    else if 3 ≤ daysDev ∧ f.adherence_check_sent = false then
      (some ("Ruby", TriggerKind.adherenceCheckIn), { f with adherence_check_sent := true })
    else if daysDev = 0 then
      (none, { f with adherence_check_sent := false })
    else if 0 < day ∧ pymod day 45 < 1 ∧ f.wellness_check_sent = false then
      (some ("Ruby", TriggerKind.wellnessCheck), { f with wellness_check_sent_day := some day })
    else if recovery < 30 then
      (some ("Advik", TriggerKind.recoveryAlert), f)
    else if pyAbs (day - lastExUpd) < 1 then
      (some ("Rachel", TriggerKind.exercisePlanCheckIn), f)
    else if 0 < day ∧ pymod day 14 < 1 then
      (some ("Carla", TriggerKind.nutritionBiweekly), f)
    else if 0 < day ∧ pymod day 90 < 1 then
      (some ("Neel", TriggerKind.quarterlyReview), f)
    else (none, f))

/-! ## travel_process and its spawn time (processes.py lines 6-19, 39-50) -/

/-- The onboarding delay of timeline_process line 11: travel_process is
spawned only after `yield env.timeout(28)`. -/
def onboardingDelay : ℚ := 28

/-- Day on which the k-th travel starts: each loop iteration of
travel_process waits 21 days (line 42), toggles is_traveling on, waits
7 days (line 46), toggles it off, and repeats. -/
def travelStartTime : ℕ → ℚ
  | 0 => onboardingDelay + 21
  | k + 1 => travelStartTime k + 7 + 21

/-- Day on which the k-th travel ends (the timeout(7) at line 46). -/
def travelEndTime (k : ℕ) : ℚ := travelStartTime k + 7

/-- logistics.is_traveling at simulated day t: the flag starts false, is set
true at each travelStartTime and false at each travelEndTime, so it holds
exactly inside the half-open trip windows. -/
def isTravelingOn (t : ℚ) : Prop :=
  ∃ k : ℕ, travelStartTime k ≤ t ∧ t < travelEndTime k

/-- The location assigned at each travel end (processes.py line 48). -/
def travelHomeLocation : String := "Singapore"

/-! ## health_issues_process (processes.py lines 52-102) -/

/-- The fixed issue catalog with base daily probabilities, in the insertion
order of the PROBS dict (lines 69-72). -/
def basePROBS : List (String × ℚ) :=
  [("Minor Illness (Cold/Flu)", 5 / 1000),
   ("Muscle Strain/Joint Pain", 4 / 1000),
   ("Bout of Indigestion", 7 / 1000),
   ("Stress Headache", 6 / 1000),
   ("Blood Pressure Spike", 3 / 1000)]

/-- Additive risk modifiers of lines 73-89, keyed by issue name. -/
def riskModifier (traveling : Bool) (recovery : ℚ) (adherence : String)
    (issue : String) : ℚ :=
  (if traveling then
    (if issue = "Minor Illness (Cold/Flu)" then 25 / 1000 else 0) +
    (if issue = "Bout of Indigestion" then 30 / 1000 else 0) +
    (if issue = "Stress Headache" then 10 / 1000 else 0)
   else 0) +
  (if recovery < 40 then
    (if issue = "Minor Illness (Cold/Flu)" then 15 / 1000 else 0) +
    (if issue = "Muscle Strain/Joint Pain" then 20 / 1000 else 0) +
    (if issue = "Stress Headache" then 15 / 1000 else 0) +
    (if issue = "Blood Pressure Spike" then 10 / 1000 else 0)
   else 0) +
  (if adherence = "DEVIATED" then
    (if issue = "Blood Pressure Spike" then 20 / 1000 else 0) +
    (if issue = "Bout of Indigestion" then 10 / 1000 else 0)
   else 0)

/-- The onset loop of lines 91-102: one Bernoulli trial per catalog entry in
order; draws i is the i-th `random.random()` call; the first hit wins and
the loop breaks. Returns the winning index and issue name. -/
def onsetScanAux (traveling : Bool) (recovery : ℚ) (adherence : String)
    (draws : ℕ → ℚ) : ℕ → List (String × ℚ) → Option (ℕ × String)
  | _, [] => none
  | i, (issue, p) :: rest =>
    if draws i < p + riskModifier traveling recovery adherence issue then
      some (i, issue)
    else onsetScanAux traveling recovery adherence draws (i + 1) rest

def onsetScan (traveling : Bool) (recovery : ℚ) (adherence : String)
    (draws : ℕ → ℚ) : Option (ℕ × String) :=
  onsetScanAux traveling recovery adherence draws 0 basePROBS

/-- The three narrative_flags keys owned by the health-issue engine. -/
structure HealthFlags where
  active_issue : Option String
  issue_resolves_on : Option ℚ
  issue_cooldown_until : Option ℚ
deriving DecidableEq

/-- Resolution check of lines 61-64: a truthy active issue whose
issue_resolves_on has arrived is popped and HEALTH_ISSUE_RESOLVED logged
(`.get('issue_resolves_on', -1)` supplies the -1 default). -/
def healthResolvePhase (day : ℚ) (f : HealthFlags) : HealthFlags × List String :=
  if optTruthy f.active_issue = true ∧ f.issue_resolves_on.getD (-1) ≤ day then
    ({ f with active_issue := none, issue_resolves_on := none },
     ["HEALTH_ISSUE_RESOLVED"])
  else (f, [])

/-- Cooldown gate of lines 66-67: skip onset while the day is before
issue_cooldown_until. -/
def healthGate (day : ℚ) (f : HealthFlags) : Bool :=
  match f.issue_cooldown_until with
  | some c => decide (day < c)
  | none => false

/-- One daily tick of health_issues_process (lines 58-102): resolution check,
cooldown gate, then onset generation. dur models `random.randint(2, 5)` and
cd models `random.randint(7, 14)`; the returned list holds the event types
logged during the tick, in order. -/
def healthDailyStep (day : ℚ) (traveling : Bool) (recovery : ℚ)
    (adherence : String) (draws : ℕ → ℚ) (dur cd : ℕ) (f : HealthFlags) :
    HealthFlags × List String :=
  if healthGate day (healthResolvePhase day f).1 then healthResolvePhase day f
  else
    match onsetScan traveling recovery adherence draws with
    | some (_, issue) =>
      ({ active_issue := some issue,
         issue_resolves_on := some (day + (dur : ℚ)),
         issue_cooldown_until := some (day + (dur : ℚ) + (cd : ℚ)) },
       (healthResolvePhase day f).2 ++ ["HEALTH_ISSUE"])
    | none => healthResolvePhase day f

/-- The invariant the engine maintains on its flags: an active issue always
carries a resolution day and a cooldown end at least 7 days after it. -/
def healthInv (f : HealthFlags) : Prop :=
  ∀ i, f.active_issue = some i →
    ∃ r, f.issue_resolves_on = some r ∧
      ∃ c, f.issue_cooldown_until = some c ∧ r + 7 ≤ c

/-! ## milestone_process, adherence ratchet (processes.py lines 104-119) -/

/-- The local state of the adherence ratchet: the consecutive ON_TRACK day
counter and the current threshold (source variable adherence_milestone_days,
initially 30). -/
structure MilestoneState where
  days_on_track : ℕ
  adherence_milestone_days : ℕ
deriving DecidableEq

def milestoneInit : MilestoneState := ⟨0, 30⟩

/-- One daily tick of the adherence ratchet (lines 111-119): increment on
ON_TRACK, reset otherwise; on reaching the threshold log POSITIVE_MILESTONE
(the returned Bool), reset the counter and raise the threshold by 30. -/
def milestoneStep (status : String) (s : MilestoneState) : MilestoneState × Bool :=
  let d := if status = "ON_TRACK" then s.days_on_track + 1 else 0
  if s.adherence_milestone_days ≤ d then
    (⟨0, s.adherence_milestone_days + 30⟩, true)
  else (⟨d, s.adherence_milestone_days⟩, false)

/-- One day of the ratchet together with a count of firings so far. -/
def milestoneAcc (a : MilestoneState × ℕ) (status : String) : MilestoneState × ℕ :=
  ((milestoneStep status a.1).1,
   a.2 + (if (milestoneStep status a.1).2 then 1 else 0))

/-- Run the ratchet over a chronological list of daily adherence statuses,
counting milestone firings. -/
def milestoneRun (l : List String) : MilestoneState × ℕ :=
  l.foldl milestoneAcc (milestoneInit, 0)

/-- Length of the maximal all-ON_TRACK suffix of a status history. -/
def trailingOnTrack (l : List String) : ℕ :=
  (l.reverse.takeWhile (fun s => s == "ON_TRACK")).length

/-! ## models/state.py SimulationState field list -/

/-- The fields declared on SimulationState (models/state.py lines 26-34). -/
def simulationStateFields : List String :=
  ["current_day", "member_profile", "health_data", "intervention_plan",
   "logistics", "event_log", "narrative_flags"]

/-- The attributes the running processes read on the shared state object:
processes.py reads state.agent_memory at lines 248-251, 300-303, 319-322 and
342-345, and utils.py distill_context reads it at line 59, besides the
declared fields. -/
def processStateAttrReads : List String :=
  ["current_day", "member_profile", "health_data", "intervention_plan",
   "logistics", "event_log", "narrative_flags", "agent_memory"]

/-! ## Helper lemmas -/

lemma wellnessCleanup_fst (day : ℚ)
    (p : Option (String × TriggerKind) × ResolverFlags) :
    (wellnessCleanup day p).1 = p.1 := by
  rcases p with ⟨o, f1⟩
  cases o <;> rfl

lemma getFlag_setFlag (flags : List (Json × Json)) (k v : Json) :
    getFlag (setFlag flags k v) k = some v := by
  induction flags with
  | nil => simp [setFlag, getFlag]
  | cons hd tl ih =>
    rcases hd with ⟨k0, v0⟩
    by_cases h : k0 = k <;> simp [setFlag, getFlag, h, ih]

lemma stripPre_append_isSome (p q : List Char) :
    ∀ l, (stripPre (p ++ q) l).isSome = true → (stripPre p l).isSome = true := by
  induction p with
  | nil => intro l _; simp [stripPre]
  | cons c cs ih =>
    intro l h
    cases l with
    | nil => simp [stripPre] at h
    | cons x xs =>
      simp only [List.cons_append, stripPre] at h ⊢
      by_cases hc : c = x
      · simp only [if_pos hc] at h ⊢
        exact ih xs h
      · simp [if_neg hc] at h

lemma splitFirst_mono (p q : List Char) :
    ∀ l, (splitFirst (p ++ q) l).isSome = true → (splitFirst p l).isSome = true := by
  intro l
  induction l with
  | nil =>
    intro h
    simp only [splitFirst] at h ⊢
    cases hs : stripPre (p ++ q) [] with
    | none => simp [hs] at h
    | some r =>
      have h2 := stripPre_append_isSome p q [] (by simp [hs])
      cases hs2 : stripPre p [] with
      | none => simp [hs2] at h2
      | some r2 => simp
  | cons c cs ih =>
    intro h
    simp only [splitFirst] at h ⊢
    cases hs2 : stripPre p (c :: cs) with
    | some r2 => simp
    | none =>
      cases hs : stripPre (p ++ q) (c :: cs) with
      | some r =>
        have h2 := stripPre_append_isSome p q (c :: cs) (by simp [hs])
        simp [hs2] at h2
      | none =>
        simp only [hs] at h
        cases hrec : splitFirst (p ++ q) cs with
        | none => simp [hrec] at h
        | some pr =>
          have h2 : (splitFirst p cs).isSome = true := ih (by simp [hrec])
          cases hrec2 : splitFirst p cs with
          | none => simp [hrec2] at h2
          | some pr2 => simp

lemma containsSub_fence_json (raw : String) :
    containsSub raw "```" = false → containsSub raw "```json" = false := by
  intro h
  cases hc : containsSub raw "```json" with
  | false => rfl
  | true =>
    exfalso
    have hsplit : "```json".toList = "```".toList ++ "json".toList := by decide
    have := splitFirst_mono "```".toList "json".toList raw.toList
      (by unfold containsSub at hc; rw [hsplit] at hc; exact hc)
    unfold containsSub at h
    rw [h] at this
    simp at this

lemma travelStartTime_closed (k : ℕ) : travelStartTime k = 49 + 28 * (k : ℚ) := by
  induction k with
  | zero => norm_num [travelStartTime, onboardingDelay]
  | succ n ih =>
    rw [travelStartTime, ih]
    push_cast
    ring

/-! ## Claim theorems -/

/-- C3: the spec's data model gives every SimulationState an agent_memory
field, and the running processes read state.agent_memory, but the
SimulationState class of models/state.py declares no such field — reading
agent_memory on a freshly constructed SimulationState raises AttributeError
(first hit in distill_context, utils.py line 59, which runs outside any
try block). The claim describes the intended model; the code omits the
field it needs. -/
theorem agent_memory_field_missing :
    "agent_memory" ∈ processStateAttrReads ∧
      "agent_memory" ∉ simulationStateFields := by
  decide

/-- C5: the 45-day wellness branch is NOT gated by the flag its firing
records. At the day-45 tick the branch fires and records
wellness_check_sent_day = 45, yet the key the guard reads
(wellness_check_sent) is still unset afterwards; and the branch fires even
when wellness_check_sent_day = 45 is already recorded for the same window.
The source's own comment (processes.py line 236) shows the recorded flag was
meant to gate the branch; the guard at line 193 reads a key nothing ever
sets. -/
theorem wellness_flag_key_mismatch :
    ((resolveTriggers ⟨some "Intervention", false, false, none, false, false, none⟩
        (some "STATE_CHANGE") 45 50 30 1).1 = some ("Ruby", TriggerKind.wellnessCheck)
      ∧ (resolveTriggers ⟨some "Intervention", false, false, none, false, false, none⟩
        (some "STATE_CHANGE") 45 50 30 1).2.wellness_check_sent = false
      ∧ (resolveTriggers ⟨some "Intervention", false, false, none, false, false, none⟩
        (some "STATE_CHANGE") 45 50 30 1).2.wellness_check_sent_day = some 45)
    ∧ (resolveTriggers ⟨some "Intervention", false, false, none, false, false, some 45⟩
        (some "STATE_CHANGE") 45 50 30 1).1 = some ("Ruby", TriggerKind.wellnessCheck) := by
  have hmod : pymod 45 45 = 0 := by unfold pymod; norm_num
  refine ⟨⟨?_, ?_, ?_⟩, ?_⟩ <;>
    norm_num [resolveTriggers, wellnessCleanup, optTruthy, hmod] <;> decide

/-- C1 counterexample: a tick where none of the §4.6 branches 1-6 matches
and recovery_score = 25 < 30, but days_deviated = 0, so the non-selecting
`days_deviated == 0` arm (processes.py line 189) consumes the elif chain and
nothing is selected — the claim requires the Advik critical-alert branch to
fire here. -/
theorem resolver_priority_counterexample :
    ((25 : ℚ) < 30)
    ∧ ¬(some "STATE_CHANGE" = some "TRAVEL_START")
    ∧ (some "Intervention" : Option String) ≠ some "Onboarding"
    ∧ optTruthy (none : Option String) = false
    ∧ ¬(some "STATE_CHANGE" = some "POSITIVE_MILESTONE")
    ∧ ¬(3 ≤ (0 : ℕ))
    ∧ ¬(pymod 50 45 < 1)
    ∧ (resolveTriggers ⟨some "Intervention", false, false, none, false, false, none⟩
        (some "STATE_CHANGE") 50 25 42 0).1 = none := by
  have hmod : pymod 50 45 = 5 := by unfold pymod; norm_num
  refine ⟨by norm_num, by simp, by simp, by simp [optTruthy], by simp, by norm_num,
    by rw [hmod]; norm_num, ?_⟩
  norm_num [resolveTriggers, wellnessCleanup, optTruthy]
  decide

/-- C1 (amended): the daily resolver evaluates the ten §4.6 branches in
source order but with two interposed non-selecting arms — a TRAVEL_END arm
after branch 1 and a days_deviated == 0 arm after branch 5 — each of which
ends the tick's evaluation; at most the first matching arm is selected, so
at most one (responder, trigger) pair per tick, and when branches 1-6, the
TRAVEL_END arm and the days_deviated == 0 arm all fail to match and the
latest recovery_score is below 30, the data/wearables responder Advik is
selected with the critical-alert trigger. -/
theorem resolver_priority_amended
    (f : ResolverFlags) (lastEvent : Option String)
    (day recovery lastExUpd : ℚ) (daysDev : ℕ)
    (h1 : ¬(lastEvent = some "TRAVEL_START" ∧ f.travel_check_in_sent = false))
    (h2 : ¬(lastEvent = some "TRAVEL_END"))
    (h3 : ¬(f.status = some "Onboarding" ∧ f.onboarding_docs_sent = false))
    (h4 : optTruthy f.active_issue = false)
    (h5 : ¬(lastEvent = some "POSITIVE_MILESTONE"))
    (h6 : ¬(3 ≤ daysDev ∧ f.adherence_check_sent = false))
    (h7 : daysDev ≠ 0)
    (h8 : ¬(0 < day ∧ pymod day 45 < 1 ∧ f.wellness_check_sent = false))
    (h9 : recovery < 30) :
    (resolveTriggers f lastEvent day recovery lastExUpd daysDev).1 =
      some ("Advik", TriggerKind.recoveryAlert) := by
  unfold resolveTriggers
  rw [wellnessCleanup_fst]
  rw [if_neg h1, if_neg h2, if_neg h3, if_neg (by simp [h4]), if_neg h5,
    if_neg h6, if_neg h7, if_neg h8, if_pos h9]

/-- Witness for the amended C1 theorem at a concrete tick. -/
theorem resolver_priority_amended_witness :
    (resolveTriggers ⟨some "Intervention", false, false, none, false, false, none⟩
        (some "STATE_CHANGE") 50 25 42 1).1 =
      some ("Advik", TriggerKind.recoveryAlert) :=
  resolver_priority_amended _ _ _ _ _ _ (by simp) (by simp) (by simp)
    (by simp [optTruthy]) (by simp) (by norm_num) (by norm_num)
    (by
      have hmod : pymod 50 45 = 5 := by unfold pymod; norm_num
      norm_num [hmod])
    (by norm_num)

/-- C2 counterexample: executing UPDATE_NARRATIVE_FLAG with payload
(flag: "consultation_scheduled", value: true) stores the WHOLE payload dict
under the key, not payload.value = true (processes.py line 256 assigns
`action.get("payload", {})`). -/
theorem update_narrative_flag_counterexample :
    getFlag (executeAction []
        (Json.obj [("type", Json.str "UPDATE_NARRATIVE_FLAG"),
          ("payload", Json.obj [("flag", Json.str "consultation_scheduled"),
            ("value", Json.bool true)])])).1
        (Json.str "consultation_scheduled")
      = some (Json.obj [("flag", Json.str "consultation_scheduled"),
          ("value", Json.bool true)])
    ∧ Json.obj [("flag", Json.str "consultation_scheduled"),
        ("value", Json.bool true)] ≠ Json.bool true := by
  decide

/-- C2 (amended): whenever a parsed action of type UPDATE_NARRATIVE_FLAG
with a dict payload containing a (hashable) "flag" key is executed, the
executor writes the ENTIRE payload mapping into narrative_flags under the
key payload.flag — afterwards narrative_flags[payload.flag] equals the
payload mapping (which carries the value under its "value" entry), not the
bare payload.value. -/
theorem update_narrative_flag_amended
    (flags : List (Json × Json)) (members p : List (String × Json)) (k : Json)
    (htype : objGet members "type" = some (Json.str "UPDATE_NARRATIVE_FLAG"))
    (hpayload : objGet members "payload" = some (Json.obj p))
    (hflag : objGet p "flag" = some k)
    (hhash : jsonHashable k = true) :
    getFlag (executeAction flags (Json.obj members)).1 k = some (Json.obj p) := by
  have hne : members ≠ [] := by
    intro h
    subst h
    simp [objGet] at htype
  have htruthy : jsonTruthy (Json.obj members) = true := by
    cases members with
    | nil => exact absurd rfl hne
    | cons a l => simp [jsonTruthy]
  simp [executeAction, htruthy, htype, hpayload, hflag, hhash, getFlag_setFlag]

/-- Witness for the amended C2 theorem at a concrete action. -/
theorem update_narrative_flag_amended_witness :
    getFlag (executeAction []
        (Json.obj [("type", Json.str "UPDATE_NARRATIVE_FLAG"),
          ("payload", Json.obj [("flag", Json.str "consult_done"),
            ("value", Json.bool false)])])).1
        (Json.str "consult_done")
      = some (Json.obj [("flag", Json.str "consult_done"),
          ("value", Json.bool false)]) :=
  update_narrative_flag_amended [] _ _ _ (by decide) (by decide) (by decide)
    (by decide)

/-- C4 counterexample: day 21 lies inside the claim's travel window
[21·1, 21·1+7), yet is_traveling is false there — travel_process is spawned
only after the 28-day onboarding and then waits 21 further days, so the
first trip starts at day 49; and at travel end the location is set to
"Singapore", not the literal "home base". -/
theorem travel_window_counterexample :
    ((∃ k : ℕ, 21 * (k : ℚ) ≤ 21 ∧ (21 : ℚ) < 21 * (k : ℚ) + 7)
      ∧ ¬ isTravelingOn 21)
    ∧ travelHomeLocation ≠ "home base" := by
  refine ⟨⟨⟨1, by norm_num⟩, ?_⟩, by decide⟩
  rintro ⟨k, h1, h2⟩
  rw [travelStartTime_closed] at h1
  have hk : (0 : ℚ) ≤ (k : ℚ) := by positivity
  linarith

/-- C4 (amended): for every completed travel cycle k, is_traveling is true
exactly on the day-range [49 + 28k, 56 + 28k) — the cycle is 21 days home
then 7 days away, starting after the 28-day onboarding delay — and at each
travel end the location is set to the fixed home-base value "Singapore". -/
theorem travel_window_amended :
    (∀ t : ℚ, isTravelingOn t ↔
      ∃ k : ℕ, 49 + 28 * (k : ℚ) ≤ t ∧ t < 56 + 28 * (k : ℚ))
    ∧ travelHomeLocation = "Singapore" := by
  constructor
  · intro t
    unfold isTravelingOn travelEndTime
    constructor
    · rintro ⟨k, hl, hr⟩
      rw [travelStartTime_closed] at hl hr
      exact ⟨k, hl, by linarith⟩
    · rintro ⟨k, hl, hr⟩
      refine ⟨k, ?_, ?_⟩ <;> rw [travelStartTime_closed] <;> linarith
  · rfl

/-- Witness for the amended C4 theorem: day 50 falls in the first trip. -/
theorem travel_window_amended_witness : isTravelingOn 50 :=
  (travel_window_amended.1 50).mpr ⟨0, by norm_num⟩

/-- C10: in the member process's Initiate mode, an empty (falsy) parsed
question abandons the activation before any logging: no MESSAGE or ROUTING
event is appended, agent memory is untouched, no routing or responder call
takes effect, and the state is returned unchanged. -/
theorem member_initiate_empty_question_frame
    (s : MemberSimState) (rawQuestion routedName : String)
    (roster : List String) (responderRaw : String)
    (h : jsonTruthy (extractQuestion rawQuestion) = false) :
    memberInitiate s rawQuestion routedName roster responderRaw = s := by
  simp [memberInitiate, h]

/-- Witness for the C10 theorem: an empty raw question leaves a concrete
state unchanged. -/
theorem member_initiate_empty_question_frame_witness :
    memberInitiate ⟨[], [], []⟩ "" "Advik" ["Ruby"] "ok" = ⟨[], [], []⟩ :=
  member_initiate_empty_question_frame _ _ _ _ _ (by decide)

/-- C9: the response parser always returns a (message, action) pair (it is
total by construction, matching the never-raises contract): after fence
unwrapping, a well-formed JSON object with message/action keys and no
"response" nesting yields exactly that message and action; the claim's flat
example round-trips, as do the fenced and response-nested variants; fence-free
input passes through the fence clean-up unchanged; and any text that is not
JSON (after fence clean-up) yields the trimmed text with the NONE action —
in particular "plain text" round-trips as claimed. -/
theorem parse_llm_response_spec :
    (∀ (raw : String) (o : List (String × Json)) (m a : Json),
      Json.parse (fenceExtract raw) = some (Json.obj o) →
      objGet o "response" = none →
      objGet o "message" = some m →
      objGet o "action" = some a →
      parse_llm_response raw = (m, a))
    ∧ (∀ (raw : String) (o inner : List (String × Json)),
      Json.parse (fenceExtract raw) = some (Json.obj o) →
      objGet o "response" = some (Json.obj inner) →
      parse_llm_response raw =
        ((objGet inner "message").getD (Json.str ""),
         (objGet inner "action").getD noneAction))
    ∧ parse_llm_response
        "\x7b\"message\":\"Hi\",\"action\":\x7b\"type\":\"NONE\",\"payload\":\x7b\x7d\x7d\x7d" =
        (Json.str "Hi", Json.obj [("type", Json.str "NONE"), ("payload", Json.obj [])])
    ∧ parse_llm_response
        "```json\n\x7b\"message\":\"Hi\",\"action\":\x7b\"type\":\"NONE\",\"payload\":\x7b\x7d\x7d\x7d\n```" =
        (Json.str "Hi", Json.obj [("type", Json.str "NONE"), ("payload", Json.obj [])])
    ∧ parse_llm_response
        "\x7b\"response\": \x7b\"message\":\"Hi\",\"action\":\x7b\"type\":\"NONE\",\"payload\":\x7b\x7d\x7d\x7d\x7d" =
        (Json.str "Hi", Json.obj [("type", Json.str "NONE"), ("payload", Json.obj [])])
    ∧ (∀ raw : String, containsSub raw "```" = false → fenceExtract raw = raw)
    ∧ (∀ raw : String, Json.parse (fenceExtract raw) = none →
        parse_llm_response raw = (Json.str (pyStrip (fenceExtract raw)), noneAction))
    ∧ parse_llm_response "plain text" = (Json.str "plain text", noneAction) := by
  refine ⟨?_, ?_, by decide, by decide, by decide, ?_, ?_, by decide⟩
  · intro raw o m a hp hresp hm ha
    simp [parse_llm_response, hp, hresp, hm, ha]
  · intro raw o inner hp hresp
    simp [parse_llm_response, hp, hresp]
  · intro raw h
    unfold fenceExtract
    rw [containsSub_fence_json raw h, h]
    simp
  · intro raw h
    simp [parse_llm_response, h]

/-- Witness for the C9 theorem: a concrete non-JSON input goes through the
fallback branch. -/
theorem parse_llm_response_spec_witness :
    Json.parse (fenceExtract "hello world") = none ∧
      parse_llm_response "hello world" = (Json.str "hello world", noneAction) := by
  have h : Json.parse (fenceExtract "hello world") = none := by decide
  refine ⟨h, ?_⟩
  have h2 := parse_llm_response_spec.2.2.2.2.2.2.1 "hello world" h
  rw [h2]
  decide

lemma healthResolvePhase_cooldown (day : ℚ) (f : HealthFlags) :
    (healthResolvePhase day f).1.issue_cooldown_until = f.issue_cooldown_until := by
  unfold healthResolvePhase
  split <;> rfl

lemma healthResolvePhase_no_onset_event (day : ℚ) (f : HealthFlags) :
    "HEALTH_ISSUE" ∉ (healthResolvePhase day f).2 := by
  unfold healthResolvePhase
  split <;> simp

lemma healthResolvePhase_inv (day : ℚ) (f : HealthFlags) (hinv : healthInv f) :
    healthInv (healthResolvePhase day f).1 := by
  unfold healthResolvePhase
  split
  · intro i h
    simp at h
  · exact hinv

lemma healthGate_false_le (day : ℚ) (f' : HealthFlags)
    (h : healthGate day f' = false) :
    ∀ c, f'.issue_cooldown_until = some c → c ≤ day := by
  intro c hc
  unfold healthGate at h
  rw [hc] at h
  simpa using h

lemma healthStep_onset_analysis
    (day : ℚ) (traveling : Bool) (recovery : ℚ) (adherence : String)
    (draws : ℕ → ℚ) (dur cd : ℕ) (f : HealthFlags)
    (hmem : "HEALTH_ISSUE" ∈
      (healthDailyStep day traveling recovery adherence draws dur cd f).2) :
    (∃ i issue, onsetScan traveling recovery adherence draws = some (i, issue) ∧
      (healthDailyStep day traveling recovery adherence draws dur cd f).1 =
        ⟨some issue, some (day + (dur : ℚ)), some (day + (dur : ℚ) + (cd : ℚ))⟩)
    ∧ (∀ c, f.issue_cooldown_until = some c → c ≤ day) := by
  unfold healthDailyStep at hmem ⊢
  by_cases hgate : healthGate day (healthResolvePhase day f).1 = true
  · rw [if_pos hgate] at hmem
    exact absurd hmem (healthResolvePhase_no_onset_event day f)
  · have hgate' : healthGate day (healthResolvePhase day f).1 = false := by
      simpa using hgate
    rw [if_neg hgate] at hmem
    try rw [if_neg hgate]
    cases hscan : onsetScan traveling recovery adherence draws with
    | none =>
      rw [hscan] at hmem
      exact absurd hmem (healthResolvePhase_no_onset_event day f)
    | some pr =>
      rcases pr with ⟨i, issue⟩
      rw [hscan] at hmem
      try rw [hscan]
      refine ⟨⟨i, issue, rfl, rfl⟩, ?_⟩
      intro c hc
      exact healthGate_false_le day _ hgate' c
        (by rw [healthResolvePhase_cooldown]; exact hc)

lemma healthStep_inv
    (day : ℚ) (traveling : Bool) (recovery : ℚ) (adherence : String)
    (draws : ℕ → ℚ) (dur cd : ℕ) (f : HealthFlags)
    (hinv : healthInv f) (hcd7 : 7 ≤ cd) :
    healthInv (healthDailyStep day traveling recovery adherence draws dur cd f).1 := by
  have hcast : (7 : ℚ) ≤ (cd : ℚ) := by exact_mod_cast hcd7
  unfold healthDailyStep
  by_cases hgate : healthGate day (healthResolvePhase day f).1 = true
  · rw [if_pos hgate]
    exact healthResolvePhase_inv day f hinv
  · rw [if_neg hgate]
    cases hscan : onsetScan traveling recovery adherence draws with
    | none => exact healthResolvePhase_inv day f hinv
    | some pr =>
      rcases pr with ⟨i, issue⟩
      intro j h
      exact ⟨day + (dur : ℚ), rfl, day + (dur : ℚ) + (cd : ℚ), rfl, by linarith⟩

/-- C6: at every simulated day at most one health issue is active — the
engine keeps a single global issue slot (the active_issue flag of
HealthFlags), and the daily step preserves the engine invariant linking it
to its resolution and cooldown days — and a HEALTH_ISSUE event is never
logged on a tick while a prior issue is still unresolved (its
issue_resolves_on lies beyond the day) or while the day is before the
current issue_cooldown_until. -/
theorem health_issue_exclusion :
    (∀ (day : ℚ) (traveling : Bool) (recovery : ℚ) (adherence : String)
      (draws : ℕ → ℚ) (dur cd : ℕ) (f : HealthFlags),
      healthInv f → 7 ≤ cd →
      healthInv (healthDailyStep day traveling recovery adherence draws dur cd f).1)
    ∧ (∀ (day : ℚ) (traveling : Bool) (recovery : ℚ) (adherence : String)
      (draws : ℕ → ℚ) (dur cd : ℕ) (f : HealthFlags),
      healthInv f →
      "HEALTH_ISSUE" ∈ (healthDailyStep day traveling recovery adherence draws dur cd f).2 →
      (∀ i r, f.active_issue = some i → f.issue_resolves_on = some r → r ≤ day)
      ∧ (∀ c, f.issue_cooldown_until = some c → c ≤ day)) := by
  constructor
  · intro day traveling recovery adherence draws dur cd f hinv hcd7
    exact healthStep_inv day traveling recovery adherence draws dur cd f hinv hcd7
  · intro day traveling recovery adherence draws dur cd f hinv hmem
    have h := healthStep_onset_analysis day traveling recovery adherence draws dur cd f hmem
    refine ⟨?_, h.2⟩
    intro i r hai hro
    rcases hinv i hai with ⟨r', hr', c, hc, hrc⟩
    rw [hro] at hr'
    injection hr' with hr''
    subst hr''
    have hcle := h.2 c hc
    linarith

/-- Witness for the C6 theorem at a concrete tick: the empty flag state
satisfies the invariant, and one step with every trial hitting preserves
it. -/
theorem health_issue_exclusion_witness :
    healthInv ⟨none, none, none⟩ ∧ (7 : ℕ) ≤ 8 ∧
      healthInv (healthDailyStep 2 false 50 "ON_TRACK" (fun _ => 0) 3 8
        ⟨none, none, none⟩).1 := by
  have h0 : healthInv ⟨none, none, none⟩ := fun i h => Option.noConfusion h
  exact ⟨h0, by norm_num,
    health_issue_exclusion.1 2 false 50 "ON_TRACK" (fun _ => 0) 3 8 _ h0 (by norm_num)⟩

lemma onsetScanAux_first
    (traveling : Bool) (recovery : ℚ) (adherence : String) (draws : ℕ → ℚ) :
    ∀ (l : List (String × ℚ)) (j i : ℕ) (issue : String),
      onsetScanAux traveling recovery adherence draws j l = some (i, issue) →
      ∃ m p, l.get? m = some (issue, p) ∧ i = j + m ∧
        draws i < p + riskModifier traveling recovery adherence issue ∧
        ∀ n q, n < m → l.get? n = some q →
          ¬(draws (j + n) < q.2 + riskModifier traveling recovery adherence q.1) := by
  intro l
  induction l with
  | nil => intro j i issue h; simp [onsetScanAux] at h
  | cons hd tl ih =>
    intro j i issue h
    rcases hd with ⟨a, p0⟩
    by_cases hhit : draws j < p0 + riskModifier traveling recovery adherence a
    · simp only [onsetScanAux, if_pos hhit] at h
      injection h with h1
      injection h1 with hji hai
      subst hji
      subst hai
      refine ⟨0, p0, rfl, by omega, hhit, ?_⟩
      intro n q hn
      omega
    · simp only [onsetScanAux, if_neg hhit] at h
      rcases ih (j + 1) i issue h with ⟨m, p, hget, hi, hdraw, hprev⟩
      refine ⟨m + 1, p, by simpa using hget, by omega, hdraw, ?_⟩
      intro n q hn hq
      cases n with
      | zero =>
        simp only [List.get?] at hq
        injection hq with hq'
        subst hq'
        simpa using hhit
      | succ n' =>
        have hn' : n' < m := by omega
        have := hprev n' q hn' (by simpa using hq)
        have harith : j + (n' + 1) = j + 1 + n' := by omega
        rw [harith]
        exact this

/-- C7: health-issue onset scans the 5-entry catalog in its fixed order and
the first issue whose Bernoulli trial succeeds becomes the active issue
(earlier entries all failed their trials, later ones are not tried); on a
hit with duration drawn from randint(2,5) and cooldown offset from
randint(7,14), the resulting issue_resolves_on = day + duration lies in
[day+2, day+5] and issue_cooldown_until lies in
[issue_resolves_on+7, issue_resolves_on+14]. -/
theorem health_onset_spec :
    (∀ (traveling : Bool) (recovery : ℚ) (adherence : String) (draws : ℕ → ℚ)
      (i : ℕ) (issue : String),
      onsetScan traveling recovery adherence draws = some (i, issue) →
      ∃ p, basePROBS.get? i = some (issue, p) ∧
        draws i < p + riskModifier traveling recovery adherence issue ∧
        ∀ n q, n < i → basePROBS.get? n = some q →
          ¬(draws n < q.2 + riskModifier traveling recovery adherence q.1))
    ∧ (∀ (day : ℚ) (traveling : Bool) (recovery : ℚ) (adherence : String)
      (draws : ℕ → ℚ) (dur cd : ℕ) (f : HealthFlags),
      2 ≤ dur → dur ≤ 5 → 7 ≤ cd → cd ≤ 14 →
      "HEALTH_ISSUE" ∈ (healthDailyStep day traveling recovery adherence draws dur cd f).2 →
      ∃ issue r c,
        (healthDailyStep day traveling recovery adherence draws dur cd f).1.active_issue
          = some issue ∧
        (healthDailyStep day traveling recovery adherence draws dur cd f).1.issue_resolves_on
          = some r ∧
        day + 2 ≤ r ∧ r ≤ day + 5 ∧
        (healthDailyStep day traveling recovery adherence draws dur cd f).1.issue_cooldown_until
          = some c ∧
        r + 7 ≤ c ∧ c ≤ r + 14) := by
  constructor
  · intro traveling recovery adherence draws i issue h
    rcases onsetScanAux_first traveling recovery adherence draws basePROBS 0 i issue h
      with ⟨m, p, hget, hi, hdraw, hprev⟩
    have him : i = m := by omega
    subst him
    refine ⟨p, hget, hdraw, ?_⟩
    intro n q hn hq
    have := hprev n q hn hq
    simpa using this
  · intro day traveling recovery adherence draws dur cd f h2 h5 h7 h14 hmem
    rcases (healthStep_onset_analysis day traveling recovery adherence draws dur cd f hmem).1
      with ⟨i, issue, hscan, hflags⟩
    have hc2 : (2 : ℚ) ≤ (dur : ℚ) := by exact_mod_cast h2
    have hc5 : (dur : ℚ) ≤ 5 := by exact_mod_cast h5
    have hc7 : (7 : ℚ) ≤ (cd : ℚ) := by exact_mod_cast h7
    have hc14 : (cd : ℚ) ≤ 14 := by exact_mod_cast h14
    refine ⟨issue, day + (dur : ℚ), day + (dur : ℚ) + (cd : ℚ), ?_, ?_, by linarith,
      by linarith, ?_, by linarith, by linarith⟩ <;> rw [hflags]

/-- Witness for the C7 theorem at a concrete tick where every trial hits:
the first catalog entry wins and the flag ranges hold. -/
theorem health_onset_spec_witness :
    (2 : ℕ) ≤ 3 ∧ (3 : ℕ) ≤ 5 ∧ (7 : ℕ) ≤ 8 ∧ (8 : ℕ) ≤ 14 ∧
      "HEALTH_ISSUE" ∈ (healthDailyStep 10 false 25 "ON_TRACK" (fun _ => 0) 3 8
        ⟨none, none, none⟩).2 ∧
      (∃ issue r c,
        (healthDailyStep 10 false 25 "ON_TRACK" (fun _ => 0) 3 8
          ⟨none, none, none⟩).1.active_issue = some issue ∧
        (healthDailyStep 10 false 25 "ON_TRACK" (fun _ => 0) 3 8
          ⟨none, none, none⟩).1.issue_resolves_on = some r ∧
        (10 : ℚ) + 2 ≤ r ∧ r ≤ 10 + 5 ∧
        (healthDailyStep 10 false 25 "ON_TRACK" (fun _ => 0) 3 8
          ⟨none, none, none⟩).1.issue_cooldown_until = some c ∧
        r + 7 ≤ c ∧ c ≤ r + 14) := by
  have hmem : "HEALTH_ISSUE" ∈ (healthDailyStep 10 false 25 "ON_TRACK" (fun _ => 0) 3 8
      (⟨none, none, none⟩ : HealthFlags)).2 := by
    simp [healthDailyStep, healthResolvePhase, healthGate, optTruthy, onsetScan,
      onsetScanAux, basePROBS, riskModifier]
    try norm_num
  exact ⟨by norm_num, by norm_num, by norm_num, by norm_num, hmem,
    health_onset_spec.2 10 false 25 "ON_TRACK" (fun _ => 0) 3 8 ⟨none, none, none⟩
      (by norm_num) (by norm_num) (by norm_num) (by norm_num) hmem⟩

lemma milestoneAcc_inv (a : MilestoneState × ℕ) (status : String)
    (h1 : a.1.adherence_milestone_days = 30 * (a.2 + 1))
    (h2 : a.1.days_on_track < a.1.adherence_milestone_days) :
    (milestoneAcc a status).1.adherence_milestone_days = 30 * ((milestoneAcc a status).2 + 1)
    ∧ (milestoneAcc a status).1.days_on_track <
        (milestoneAcc a status).1.adherence_milestone_days := by
  rcases a with ⟨s, n⟩
  simp only [milestoneAcc, milestoneStep] at *
  by_cases hstat : status = "ON_TRACK"
  · by_cases hfire : s.adherence_milestone_days ≤ s.days_on_track + 1
    · simp [hstat, hfire]
      omega
    · simp [hstat, hfire]
      omega
  · have hfire : ¬(s.adherence_milestone_days ≤ 0) := by omega
    simp [hstat, hfire]
    omega

lemma milestoneRun_inv_aux :
    ∀ (l : List String) (a : MilestoneState × ℕ),
      a.1.adherence_milestone_days = 30 * (a.2 + 1) →
      a.1.days_on_track < a.1.adherence_milestone_days →
      (l.foldl milestoneAcc a).1.adherence_milestone_days =
          30 * ((l.foldl milestoneAcc a).2 + 1)
        ∧ (l.foldl milestoneAcc a).1.days_on_track <
            (l.foldl milestoneAcc a).1.adherence_milestone_days := by
  intro l
  induction l with
  | nil => intro a h1 h2; exact ⟨h1, h2⟩
  | cons x t ih =>
    intro a h1 h2
    rw [List.foldl_cons]
    have h := milestoneAcc_inv a x h1 h2
    exact ih _ h.1 h.2

lemma milestone_days_le_trailing (l : List String) :
    (milestoneRun l).1.days_on_track ≤ trailingOnTrack l := by
  induction l using List.reverseRecOn with
  | nil => simp [milestoneRun, milestoneInit, trailingOnTrack]
  | append_singleton t a ih =>
    have hrun : milestoneRun (t ++ [a]) = milestoneAcc (milestoneRun t) a := by
      simp [milestoneRun, List.foldl_append]
    rw [hrun]
    by_cases hstat : a = "ON_TRACK"
    · have htr : trailingOnTrack (t ++ [a]) = trailingOnTrack t + 1 := by
        simp [trailingOnTrack, List.reverse_append, hstat]
      rw [htr]
      unfold milestoneAcc milestoneStep
      by_cases hfire : (milestoneRun t).1.adherence_milestone_days ≤
          (milestoneRun t).1.days_on_track + 1
      · simp [hstat, hfire]
      · simp [hstat, hfire]
        omega
    · unfold milestoneAcc milestoneStep
      by_cases hfire : (milestoneRun t).1.adherence_milestone_days ≤ 0
      · simp [hstat, hfire]
      · simp [hstat, hfire]

/-- C8: the adherence milestone fires exactly when the consecutive ON_TRACK
counter reaches the current threshold N (given the engine invariant that the
counter is below the threshold); any non-ON_TRACK day resets the counter to
0 without firing; each firing resets the counter to 0 and raises the
threshold by 30; over any status history the threshold equals
30 * (number of firings + 1) — i.e. 30, 60, 90, … — the counter stays below
it, and the counter never exceeds the current trailing run of ON_TRACK
days. -/
theorem adherence_milestone_spec :
    (∀ (status : String) (s : MilestoneState),
      s.days_on_track < s.adherence_milestone_days →
      ((milestoneStep status s).2 = true ↔
        status = "ON_TRACK" ∧ s.days_on_track + 1 = s.adherence_milestone_days))
    ∧ (∀ (status : String) (s : MilestoneState),
      status ≠ "ON_TRACK" → 0 < s.adherence_milestone_days →
      milestoneStep status s = (⟨0, s.adherence_milestone_days⟩, false))
    ∧ (∀ (status : String) (s : MilestoneState),
      (milestoneStep status s).2 = true →
      (milestoneStep status s).1 = ⟨0, s.adherence_milestone_days + 30⟩)
    ∧ (∀ l : List String,
      (milestoneRun l).1.adherence_milestone_days = 30 * ((milestoneRun l).2 + 1)
      ∧ (milestoneRun l).1.days_on_track < (milestoneRun l).1.adherence_milestone_days)
    ∧ (∀ l : List String, (milestoneRun l).1.days_on_track ≤ trailingOnTrack l) := by
  refine ⟨?_, ?_, ?_, ?_, milestone_days_le_trailing⟩
  · intro status s hlt
    by_cases hstat : status = "ON_TRACK"
    · by_cases hfire : s.adherence_milestone_days ≤ s.days_on_track + 1
      · simp [milestoneStep, hstat, hfire]
        omega
      · simp [milestoneStep, hstat, hfire]
        omega
    · have hfire : ¬(s.adherence_milestone_days ≤ 0) := by omega
      simp [milestoneStep, hstat, hfire]
  · intro status s hstat hpos
    have hfire : ¬(s.adherence_milestone_days ≤ 0) := by omega
    simp [milestoneStep, hstat, hfire]
  · intro status s hfired
    unfold milestoneStep at hfired ⊢
    by_cases hfire : s.adherence_milestone_days ≤
        (if status = "ON_TRACK" then s.days_on_track + 1 else 0)
    · simp [hfire]
    · simp [hfire] at hfired
  · intro l
    exact milestoneRun_inv_aux l (milestoneInit, 0) (by norm_num [milestoneInit])
      (by norm_num [milestoneInit])

/-- Witness for the C8 theorem: with threshold 30 and a 29-day streak, one
more ON_TRACK day fires the milestone. -/
theorem adherence_milestone_spec_witness :
    (milestoneStep "ON_TRACK" ⟨29, 30⟩).2 = true :=
  (adherence_milestone_spec.1 "ON_TRACK" ⟨29, 30⟩ (by norm_num)).mpr
    ⟨rfl, by norm_num⟩
